import Mathlib

/-!
Shallow embedding of `aiden_health_app.py`: a small health-log application
consisting of a pure risk scorer (`compute_risk`), a JSON-file entry store
(`load_entries` / `save_entries` / `ensure_data_file`), a demo seeder
(`demo_entries` / `load_demo`), and a form-to-entry builder (`build_entry`)
with the `POST /entry` route (`add_entry`).

Python strings are Lean `String`, Python ints are Lean `Int`, Python dict
records are Lean structures, raised exceptions are `Except.error`, and the
data file is modelled at the JSON-value level: the file system state is
`Option Json` (`none` = file absent), with `json.dumps` / `json.loads`
treated as mutually inverse between JSON values and their text.
-/

namespace AidenHealth

/-- Whitespace characters stripped by Python `str.strip()` and by `int()`
before parsing (space, tab, newline, carriage return, vertical tab, form feed). -/
def isPySpace (c : Char) : Bool :=
  c = ' ' || c = '\t' || c = '\n' || c = '\r' || c = Char.ofNat 11 || c = Char.ofNat 12

/-- Strip leading and trailing Python whitespace from a character list. -/
def pyStripList (cs : List Char) : List Char :=
  ((cs.dropWhile isPySpace).reverse.dropWhile isPySpace).reverse

/-- Python `s.strip()`. -/
def pyStrip (s : String) : String :=
  String.mk (pyStripList s.toList)

/-- Numeric value of an ASCII digit character. -/
def digitVal (c : Char) : Nat :=
  c.toNat - 48

/-- Continue parsing a run of decimal digits after the first digit, allowing a
single underscore between two digits, as Python `int()` does. -/
def pyDigitsRest : List Char → Nat → Option Nat
  | [], acc => some acc
  | c :: cs, acc =>
    if c.isDigit then
      pyDigitsRest cs (acc * 10 + digitVal c)
    else if c = '_' then
      match cs with
      | c2 :: cs2 => if c2.isDigit then pyDigitsRest cs2 (acc * 10 + digitVal c2) else none
      | [] => none
    else none

/-- Parse a non-empty run of decimal digits (with optional single underscores
between digits); `none` on anything else. -/
def pyDigits : List Char → Option Nat
  | [] => none
  | c :: cs => if c.isDigit then pyDigitsRest cs (digitVal c) else none

/-- Python `int(s)` on a string: strip surrounding whitespace, allow one
optional sign, then a non-empty digit run; `none` models the `ValueError`
raised on any other input (in particular on `""` and on decimal strings
such as `"200.5"`). -/
def pyInt (s : String) : Option Int :=
  match pyStripList s.toList with
  | '+' :: cs => (pyDigits cs).map (fun n => (n : Int))
  | '-' :: cs => (pyDigits cs).map (fun n => -(n : Int))
  | cs => (pyDigits cs).map (fun n => (n : Int))

/-- Helper for `splitComma`: accumulate the current token (reversed). -/
def splitCommaAux : List Char → List Char → List String
  | [], acc => [String.mk acc.reverse]
  | c :: cs, acc =>
    if c = ',' then String.mk acc.reverse :: splitCommaAux cs []
    else splitCommaAux cs (c :: acc)

/-- Python `s.split(",")`: tokens between commas, kept verbatim, so
`"".split(",") = [""]` and `",".split(",") = ["", ""]`. -/
def splitComma (s : String) : List String :=
  splitCommaAux s.toList []

/-- One log entry, with the fields and types produced by `build_entry` and
`demo_entries` (timestamps and dates are opaque strings; `peak_flow` is kept
as the raw string exactly as in the Python dict). -/
structure Entry where
  timestamp : String
  date : String
  cough_severity : Int
  cough_notes : String
  asthma_trouble : Bool
  asthma_notes : String
  medication : String
  peak_flow : String
  fever : Bool
  exposures : String
  teacher_note : String
deriving DecidableEq

/-- Lines 51-53 of the source: `if exposures: score += min(3, len(exposures.split(",")))`,
as the additive contribution it adds to the score. String truthiness is the
non-emptiness test. -/
def expContribution (ex : String) : Int :=
  if ex ≠ "" then min 3 (Int.ofNat (splitComma ex).length) else 0

/-- Lines 54-62 of the source: the peak-flow conditional with its
`try: int(...) except ValueError: pass`, as the additive contribution it adds
to the score (`none` from `pyInt` is the swallowed `ValueError`). -/
def pfContribution (pf : String) : Int :=
  if pf ≠ "" then
    match pyInt pf with
    | some v => if v < 250 then 3 else if v < 325 then 2 else 0
    | none => 0
  else 0

/-- `compute_risk` (lines 43-70 of the source): sequential accumulation of the
score followed by thresholding into a label. -/
def compute_risk (entry : Entry) : String × Int :=
  let score : Int := 0
  let score := score + entry.cough_severity
  let score := score + (if entry.asthma_trouble then 2 else 0)
  let score := score + (if entry.fever then 3 else 0)
  let score := score + expContribution entry.exposures
  let score := score + pfContribution entry.peak_flow
  let label := if score ≥ 8 then "High" else if score ≥ 4 then "Moderate" else "Low"
  (label, score)

/-- The score formula exactly as the specification words it: start at 0, add
`cough_severity` as-is, add 2 for `asthma_trouble`, 3 for `fever`, the capped
comma-token count for a non-empty exposures string, and the peak-flow bonus
with no addition when peak flow is missing (empty) or non-numeric. -/
def score_spec (e : Entry) : Int :=
  0 + e.cough_severity
    + (if e.asthma_trouble then 2 else 0)
    + (if e.fever then 3 else 0)
    + (if e.exposures ≠ "" then min 3 (Int.ofNat (splitComma e.exposures).length) else 0)
    + (match pyInt e.peak_flow with
       | some v => if v < 250 then 3 else if v < 325 then 2 else 0
       | none => 0)

theorem pyInt_empty : pyInt "" = none := rfl

/-- The score component of `compute_risk` decomposes into independent additive
contributions. -/
theorem compute_risk_snd (e : Entry) :
    (compute_risk e).2 =
      e.cough_severity + (if e.asthma_trouble then 2 else 0) + (if e.fever then 3 else 0)
        + expContribution e.exposures + pfContribution e.peak_flow := by
  simp only [compute_risk]
  omega

/-- The label component of `compute_risk` is a pure function of the score. -/
theorem compute_risk_fst (e : Entry) :
    (compute_risk e).1 =
      if (compute_risk e).2 ≥ 8 then "High"
      else if (compute_risk e).2 ≥ 4 then "Moderate" else "Low" := by
  rfl

example : (compute_risk ⟨"t", "d", 1, "", true, "", "", "300", false, "a,b,c,d", ""⟩).2 = 8 := by
  decide

example : (compute_risk ⟨"t", "d", 1, "", true, "", "", "300", false, "a,b,c,d", ""⟩).1 = "High" := by
  decide

/-- C1: for every entry, the numeric score returned by `compute_risk` equals
0, plus `cough_severity` as-is, plus 2 if `asthma_trouble`, plus 3 if `fever`,
plus (for a non-empty exposures string) the comma-token count capped at 3,
plus the peak-flow contribution (3 if < 250, else 2 if < 325, else 0; 0 when
peak flow is missing or non-numeric). -/
theorem compute_risk_score_eq_spec (e : Entry) : (compute_risk e).2 = score_spec e := by
  rw [compute_risk_snd, score_spec, expContribution, pfContribution]
  by_cases hpf : e.peak_flow = ""
  · rw [hpf, pyInt_empty]
    simp
  · simp [hpf]

/-- C2: the label returned by `compute_risk` is determined exactly by the
numeric score: "High" iff score ≥ 8, "Moderate" iff 4 ≤ score < 8, "Low" iff
score < 4 (so score 8 is "High", 4 is "Moderate", 3 is "Low"). -/
theorem compute_risk_label_thresholds (e : Entry) :
    ((compute_risk e).1 = "High" ↔ (compute_risk e).2 ≥ 8)
      ∧ ((compute_risk e).1 = "Moderate" ↔ 4 ≤ (compute_risk e).2 ∧ (compute_risk e).2 < 8)
      ∧ ((compute_risk e).1 = "Low" ↔ (compute_risk e).2 < 4) := by
  rw [compute_risk_fst]
  split_ifs with h1 h2 <;>
    refine ⟨⟨fun hx => ?_, fun hx => ?_⟩, ⟨fun hx => ?_, fun hx => ?_⟩,
        ⟨fun hx => ?_, fun hx => ?_⟩⟩ <;>
      first
        | rfl
        | omega
        | exact absurd hx (by decide)

/-- C3: the score is monotone: raising `cough_severity` (all other fields
fixed) never lowers the score, and flipping `asthma_trouble` or `fever` from
false to true (all other fields fixed) never lowers the score. -/
theorem compute_risk_monotone (e : Entry) (c1 c2 : Int) (h : c1 ≤ c2) :
    (compute_risk { e with cough_severity := c1 }).2
        ≤ (compute_risk { e with cough_severity := c2 }).2
      ∧ (compute_risk { e with asthma_trouble := false }).2
        ≤ (compute_risk { e with asthma_trouble := true }).2
      ∧ (compute_risk { e with fever := false }).2
        ≤ (compute_risk { e with fever := true }).2 := by
  rcases e with ⟨ts, d, cs, cn, a, an, m, pf, f, ex, tn⟩
  refine ⟨?_, ?_, ?_⟩ <;> simp only [compute_risk_snd] <;> dsimp <;> omega

/-- A concrete entry used to instantiate theorems with hypotheses. -/
def sampleEntry : Entry :=
  ⟨"t", "d", 0, "", false, "", "", "300", false, "Pollen", ""⟩

/-- Witness for C3 at a concrete entry and cough severities 1 ≤ 2. -/
theorem compute_risk_monotone_witness :
    (1 : Int) ≤ 2
      ∧ ((compute_risk { sampleEntry with cough_severity := 1 }).2
          ≤ (compute_risk { sampleEntry with cough_severity := 2 }).2
        ∧ (compute_risk { sampleEntry with asthma_trouble := false }).2
          ≤ (compute_risk { sampleEntry with asthma_trouble := true }).2
        ∧ (compute_risk { sampleEntry with fever := false }).2
          ≤ (compute_risk { sampleEntry with fever := true }).2) :=
  ⟨by decide, compute_risk_monotone sampleEntry 1 2 (by decide)⟩

/-- C4: the peak-flow field contributes 3 for "200", 2 for "300", 0 for "350",
and 0 for "" or any non-numeric string; a malformed `peak_flow` never raises,
it degrades to the same score as an absent peak flow. -/
theorem compute_risk_peak_flow (e : Entry) (s : String) (h : pyInt s = none) :
    (compute_risk { e with peak_flow := "200" }).2
        = (compute_risk { e with peak_flow := "" }).2 + 3
      ∧ (compute_risk { e with peak_flow := "300" }).2
        = (compute_risk { e with peak_flow := "" }).2 + 2
      ∧ (compute_risk { e with peak_flow := "350" }).2
        = (compute_risk { e with peak_flow := "" }).2
      ∧ (compute_risk { e with peak_flow := s }).2
        = (compute_risk { e with peak_flow := "" }).2 := by
  rcases e with ⟨ts, d, cs, cn, a, an, m, pf, f, ex, tn⟩
  simp only [compute_risk_snd]
  dsimp only
  have h200 : pfContribution "200" = 3 := by decide
  have h300 : pfContribution "300" = 2 := by decide
  have h350 : pfContribution "350" = 0 := by decide
  have hempty : pfContribution "" = 0 := by decide
  have hs : pfContribution s = 0 := by
    rw [pfContribution]
    by_cases hse : s = ""
    · simp [hse]
    · simp [hse, h]
  rw [h200, h300, h350, hempty, hs]
  omega

/-- Witness for C4 with the non-numeric peak flow "abc" at a concrete entry. -/
theorem compute_risk_peak_flow_witness :
    pyInt "abc" = none
      ∧ ((compute_risk { sampleEntry with peak_flow := "200" }).2
          = (compute_risk { sampleEntry with peak_flow := "" }).2 + 3
        ∧ (compute_risk { sampleEntry with peak_flow := "300" }).2
          = (compute_risk { sampleEntry with peak_flow := "" }).2 + 2
        ∧ (compute_risk { sampleEntry with peak_flow := "350" }).2
          = (compute_risk { sampleEntry with peak_flow := "" }).2
        ∧ (compute_risk { sampleEntry with peak_flow := "abc" }).2
          = (compute_risk { sampleEntry with peak_flow := "" }).2) :=
  ⟨rfl, compute_risk_peak_flow sampleEntry "abc" rfl⟩

/-- C9: exposure tokens are counted without trimming or filtering empty
tokens: the string "," has no non-empty token, yet it contributes 2 to the
score of every entry. -/
theorem compute_risk_empty_tokens_count (e : Entry) :
    (compute_risk { e with exposures := "," }).2
        = (compute_risk { e with exposures := "" }).2 + 2
      ∧ (splitComma ",").all (fun t => t == "") = true := by
  rcases e with ⟨ts, d, cs, cn, a, an, m, pf, f, ex, tn⟩
  simp only [compute_risk_snd]
  dsimp only
  have hc : expContribution "," = 2 := by decide
  have he : expContribution "" = 0 := by decide
  rw [hc, he]
  exact ⟨by omega, by decide⟩

/-- C10: peak-flow parsing accepts only integer-formatted strings: decimal
numeric strings such as "200.5" and "250.0" contribute 0, even though the
values are below the thresholds. -/
theorem compute_risk_decimal_peak_flow (e : Entry) :
    (compute_risk { e with peak_flow := "200.5" }).2
        = (compute_risk { e with peak_flow := "" }).2
      ∧ (compute_risk { e with peak_flow := "250.0" }).2
        = (compute_risk { e with peak_flow := "" }).2
      ∧ pyInt "200.5" = none ∧ pyInt "250.0" = none := by
  rcases e with ⟨ts, d, cs, cn, a, an, m, pf, f, ex, tn⟩
  simp only [compute_risk_snd]
  dsimp only
  have h1 : pfContribution "200.5" = 0 := by decide
  have h2 : pfContribution "250.0" = 0 := by decide
  have he : pfContribution "" = 0 := by decide
  rw [h1, h2, he]
  exact ⟨by omega, by omega, rfl, rfl⟩

/-- A submitted web form (`request.form`): each Entry field either absent or
bound to a string. -/
structure Form where
  date : Option String
  cough_severity : Option String
  cough_notes : Option String
  asthma_trouble : Option String
  asthma_notes : Option String
  medication : Option String
  peak_flow : Option String
  fever : Option String
  exposures : Option String
  teacher_note : Option String
deriving DecidableEq

/-- Python truthiness of `form.get(key)` for a string-valued form field
(`bool(None) = bool("") = False`). -/
def formTruthy (o : Option String) : Bool :=
  match o with
  | none => false
  | some s => s ≠ ""

/-- `build_entry` (lines 110-123): builds the entry dict from the submitted
form. `int(form.get("cough_severity", 0))` raises `ValueError` (modelled as
`Except.error`) when the submitted value is not an integer-formatted string;
when the field is absent the default is the int 0 and nothing is parsed.
`now_iso` and `today` stand for `datetime.utcnow().isoformat()` and
`datetime.utcnow().strftime("%Y-%m-%d")`. -/
def build_entry (now_iso today : String) (form : Form) : Except String Entry :=
  match (match form.cough_severity with
         | none => some (0 : Int)
         | some s => pyInt s) with
  | none => Except.error "ValueError: invalid literal for int with base 10"
  | some cs =>
    Except.ok
      { timestamp := now_iso
        date := (match form.date with
                 | none => today
                 | some s => if s = "" then today else s)
        cough_severity := cs
        cough_notes := pyStrip (form.cough_notes.getD "")
        asthma_trouble := formTruthy form.asthma_trouble
        asthma_notes := pyStrip (form.asthma_notes.getD "")
        medication := pyStrip (form.medication.getD "")
        peak_flow := pyStrip (form.peak_flow.getD "")
        fever := formTruthy form.fever
        exposures := pyStrip (form.exposures.getD "")
        teacher_note := pyStrip (form.teacher_note.getD "") }

/-- JSON values: the possible parsed contents of the data file. Object fields
are an ordered association list, matching the insertion-ordered dicts that
`json.dumps` / `json.loads` preserve. -/
inductive Json where
  | null : Json
  | bool : Bool → Json
  | num : Int → Json
  | str : String → Json
  | arr : List Json → Json
  | obj : List (String × Json) → Json

/-- Python truthiness of a decoded JSON document (`None`, `False`, `0`, `""`,
`[]` and `\x7b\x7d` are falsy). -/
def jsonTruthy : Json → Bool
  | Json.null => false
  | Json.bool b => b
  | Json.num n => if n = 0 then false else true
  | Json.str s => s ≠ ""
  | Json.arr xs => if xs.isEmpty then false else true
  | Json.obj kvs => if kvs.isEmpty then false else true

/-- The JSON object (ordered dict) that one entry serialises to. -/
def entryToJson (e : Entry) : Json :=
  Json.obj
    [("timestamp", Json.str e.timestamp),
      ("date", Json.str e.date),
      ("cough_severity", Json.num e.cough_severity),
      ("cough_notes", Json.str e.cough_notes),
      ("asthma_trouble", Json.bool e.asthma_trouble),
      ("asthma_notes", Json.str e.asthma_notes),
      ("medication", Json.str e.medication),
      ("peak_flow", Json.str e.peak_flow),
      ("fever", Json.bool e.fever),
      ("exposures", Json.str e.exposures),
      ("teacher_note", Json.str e.teacher_note)]

/-- Read one entry back from its JSON object, requiring exactly the shape
`entryToJson` writes: the typed view of the dict `json.loads` returns. -/
def entryOfJson : Json → Option Entry
  | Json.obj [(k1, Json.str ts), (k2, Json.str d), (k3, Json.num cs), (k4, Json.str cn),
      (k5, Json.bool a), (k6, Json.str an), (k7, Json.str m), (k8, Json.str pf),
      (k9, Json.bool f), (k10, Json.str ex), (k11, Json.str tn)] =>
    if k1 = "timestamp" ∧ k2 = "date" ∧ k3 = "cough_severity" ∧ k4 = "cough_notes"
        ∧ k5 = "asthma_trouble" ∧ k6 = "asthma_notes" ∧ k7 = "medication"
        ∧ k8 = "peak_flow" ∧ k9 = "fever" ∧ k10 = "exposures" ∧ k11 = "teacher_note" then
      some ⟨ts, d, cs, cn, a, an, m, pf, f, ex, tn⟩
    else none
  | _ => none

/-- Decode a loaded JSON array element-wise into entries. -/
def decodeEntries : List Json → Option (List Entry)
  | [] => some []
  | j :: js =>
    match entryOfJson j, decodeEntries js with
    | some e, some es => some (e :: es)
    | _, _ => none

/-- `_ensure_data_file` (lines 28-31): create the file holding the empty JSON
array when it does not exist; the file state is `Option Json` with `none` for
an absent `data/health_log.json`. -/
def ensure_data_file (fs : Option Json) : Option Json :=
  match fs with
  | none => some (Json.arr [])
  | some j => some j

/-- `load_entries` (lines 34-36): ensure the file exists, then parse it;
returns the file state after the call together with the parsed document. -/
def load_entries (fs : Option Json) : Option Json × Json :=
  let fs2 := ensure_data_file fs
  (fs2, fs2.getD (Json.arr []))

/-- `save_entries` (lines 39-40): overwrite the whole file with the dumped
entry list, whatever the previous state was. -/
def save_entries (entries : List Entry) (_fs : Option Json) : Option Json :=
  some (Json.arr (entries.map entryToJson))

/-- Insert an entry into a timestamp-sorted list, going before strictly later
timestamps only, so earlier-listed entries stay first among equal keys. -/
def insertByTs (e : Entry) : List Entry → List Entry
  | [] => [e]
  | f :: fs => if e.timestamp ≤ f.timestamp then e :: f :: fs else f :: insertByTs e fs

/-- `samples.sort(key=lambda entry: entry["timestamp"])` (line 106): stable
ascending sort by timestamp. -/
def sortByTs : List Entry → List Entry
  | [] => []
  | e :: es => insertByTs e (sortByTs es)

/-- The three sample dicts of `demo_entries` (lines 79-105) before sorting,
with the formatted timestamp/date pairs of `utcnow()`, `utcnow() - 1 day` and
`utcnow() - 2 days` passed in as `t0 d0 t1 d1 t2 d2` (offsets 0, 1, 2);
`min(5, offset * 2)`, `offset != 0`, `str(340 - offset * 30)` and
`offset == 2` are evaluated per offset. -/
def demoSamples (t0 d0 t1 d1 t2 d2 : String) : List Entry :=
  [⟨t0, d0, 0, "Clear daytime cough.", false, "Breathing normal.",
      "Controller inhaler AM/PM", "340", false, "Pollen",
      "Encourage hydration and monitor cough frequency."⟩,
    ⟨t1, d1, 2, "Night cough with phlegm.", true, "Used rescue inhaler once.",
      "Controller inhaler AM/PM", "310", false, "Pollen, cold contact",
      "Allow indoor recess and keep inhaler accessible."⟩,
    ⟨t2, d2, 4, "Short bursts after recess.", true, "Chest tightness during PE.",
      "Controller inhaler AM/PM", "280", true, "Smoke",
      "Send to nurse if breathing is labored; skip running."⟩]

/-- `demo_entries` (lines 73-107): the three samples sorted by timestamp. -/
def demo_entries (t0 d0 t1 d1 t2 d2 : String) : List Entry :=
  sortByTs (demoSamples t0 d0 t1 d1 t2 d2)

/-- `load_demo` (lines 145-158): the `/demo` route; flash messages and the
redirect are dropped, keeping only the effect on the file state. -/
def load_demo (t0 d0 t1 d1 t2 d2 : String) (fs : Option Json) : Option Json :=
  let fs2 := ensure_data_file fs
  let entries := fs2.getD (Json.arr [])
  if jsonTruthy entries then fs2
  else save_entries (demo_entries t0 d0 t1 d1 t2 d2) fs2

/-- `add_entry` (lines 161-169): the `POST /entry` route. `build_entry` runs
before the store is read; when it raises, the request fails with the file
untouched. When the stored document is not an array, `entries.append` would
raise `AttributeError` after `_ensure_data_file` already ran, leaving the
ensured file state unchanged thereafter. -/
def add_entry (now_iso today : String) (form : Form) (fs : Option Json) : Option Json :=
  match build_entry now_iso today form with
  | Except.error _ => fs
  | Except.ok e =>
    let fs2 := ensure_data_file fs
    match fs2.getD (Json.arr []) with
    | Json.arr xs => some (Json.arr (xs ++ [entryToJson e]))
    | _ => fs2

theorem entryOfJson_entryToJson (e : Entry) : entryOfJson (entryToJson e) = some e := by
  rfl

theorem decodeEntries_map_entryToJson (l : List Entry) :
    decodeEntries (l.map entryToJson) = some l := by
  induction l with
  | nil => rfl
  | cons e es ih => simp [decodeEntries, entryOfJson_entryToJson, ih]

theorem insertByTs_perm (e : Entry) (l : List Entry) : (insertByTs e l).Perm (e :: l) := by
  induction l with
  | nil => exact List.Perm.refl _
  | cons f fs ih =>
    simp only [insertByTs]
    split
    · exact List.Perm.refl _
    · exact (ih.cons f).trans (List.Perm.swap e f fs)

theorem sortByTs_perm (l : List Entry) : (sortByTs l).Perm l := by
  induction l with
  | nil => exact List.Perm.refl _
  | cons e es ih => exact (insertByTs_perm e (sortByTs es)).trans (ih.cons e)

/-- The empty form: no field submitted at all. -/
def emptyForm : Form :=
  ⟨none, none, none, none, none, none, none, none, none, none⟩

/-- A form whose submitted cough severity is not an integer-formatted string. -/
def badForm : Form :=
  { emptyForm with cough_severity := some "severe" }

/-- C5 counterexample: `build_entry` on the form that submits
`cough_severity="severe"` raises `ValueError` (an uncaught `Except.error`)
instead of producing a degraded entry, so it is not crash-free on every form. -/
theorem build_entry_crash_counterexample :
    build_entry "t" "d" badForm
      = Except.error "ValueError: invalid literal for int with base 10" := by
  rfl

/-- C5 (amended): `build_entry` produces a well-formed entry for every form
whose `cough_severity` field, when present, is an integer-formatted string
(a non-integer `cough_severity` raises `ValueError` instead); missing
optional fields default to empty strings, `false`, severity 0 and the
server-side date. -/
theorem build_entry_no_crash (now_iso today : String) (form : Form)
    (h : ∀ s, form.cough_severity = some s → (pyInt s).isSome = true) :
    ∃ e : Entry, build_entry now_iso today form = Except.ok e
      ∧ (form.date = none → e.date = today)
      ∧ (form.cough_severity = none → e.cough_severity = 0)
      ∧ (form.cough_notes = none → e.cough_notes = "")
      ∧ (form.asthma_trouble = none → e.asthma_trouble = false)
      ∧ (form.asthma_notes = none → e.asthma_notes = "")
      ∧ (form.medication = none → e.medication = "")
      ∧ (form.peak_flow = none → e.peak_flow = "")
      ∧ (form.fever = none → e.fever = false)
      ∧ (form.exposures = none → e.exposures = "")
      ∧ (form.teacher_note = none → e.teacher_note = "") := by
  rcases form with ⟨fd, fcs, fcn, fat, fan, fm, fpf, ff, fex, ftn⟩
  cases fcs with
  | none =>
    refine ⟨_, rfl, ?_, ?_, ?_, ?_, ?_, ?_, ?_, ?_, ?_, ?_⟩ <;>
      intro hf <;> (try subst hf) <;> rfl
  | some s =>
    have hs := h s rfl
    rcases hps : pyInt s with _ | v
    · rw [hps] at hs
      simp at hs
    · simp only [build_entry, hps]
      refine ⟨_, rfl, ?_, ?_, ?_, ?_, ?_, ?_, ?_, ?_, ?_, ?_⟩ <;>
      intro hf <;> first | exact absurd hf (by simp) | (subst hf; rfl)

/-- Witness for C5 (amended) at the empty form. -/
theorem build_entry_no_crash_witness :
    ∃ e : Entry, build_entry "t" "d" emptyForm = Except.ok e
      ∧ (emptyForm.date = none → e.date = "d")
      ∧ (emptyForm.cough_severity = none → e.cough_severity = 0)
      ∧ (emptyForm.cough_notes = none → e.cough_notes = "")
      ∧ (emptyForm.asthma_trouble = none → e.asthma_trouble = false)
      ∧ (emptyForm.asthma_notes = none → e.asthma_notes = "")
      ∧ (emptyForm.medication = none → e.medication = "")
      ∧ (emptyForm.peak_flow = none → e.peak_flow = "")
      ∧ (emptyForm.fever = none → e.fever = false)
      ∧ (emptyForm.exposures = none → e.exposures = "")
      ∧ (emptyForm.teacher_note = none → e.teacher_note = "") :=
  build_entry_no_crash "t" "d" emptyForm (fun s hs => by simp [emptyForm] at hs)

/-- C6: saving a sequence of entries and loading the store back yields the
same ordered sequence (the loaded document is exactly the saved array, and
decoding it recovers the entries in order); loading an absent store creates
the empty store and yields the empty sequence. -/
theorem store_round_trip (l : List Entry) (fs : Option Json) :
    (load_entries (save_entries l fs)).2 = Json.arr (l.map entryToJson)
      ∧ decodeEntries (l.map entryToJson) = some l
      ∧ load_entries none = (some (Json.arr []), Json.arr [])
      ∧ decodeEntries [] = some [] :=
  ⟨rfl, decodeEntries_map_entryToJson l, rfl, rfl⟩

/-- C7: `/demo` on an empty store (absent file or empty array) saves exactly
3 entries whose dates are precisely today and the prior two days (`d0 d1 d2`
being the formatted dates of `utcnow()` minus 0, 1, 2 days); on a store
already holding at least one entry it changes nothing. -/
theorem load_demo_spec (t0 d0 t1 d1 t2 d2 : String) (x : Json) (xs : List Json) :
    (∃ l : List Entry,
        load_demo t0 d0 t1 d1 t2 d2 none = some (Json.arr (l.map entryToJson))
          ∧ load_demo t0 d0 t1 d1 t2 d2 (some (Json.arr []))
            = some (Json.arr (l.map entryToJson))
          ∧ l.length = 3
          ∧ (l.map Entry.date).Perm [d0, d1, d2])
      ∧ load_demo t0 d0 t1 d1 t2 d2 (some (Json.arr (x :: xs)))
        = some (Json.arr (x :: xs)) := by
  refine ⟨⟨demo_entries t0 d0 t1 d1 t2 d2, rfl, rfl, ?_, ?_⟩, rfl⟩
  · exact (sortByTs_perm (demoSamples t0 d0 t1 d1 t2 d2)).length_eq
  · exact List.Perm.map Entry.date (sortByTs_perm (demoSamples t0 d0 t1 d1 t2 d2))

/-- C8: `POST /entry` appends exactly the one built entry at the end of the
store document and leaves every previously stored element unchanged in its
original position (creating the store first when the file is absent). -/
theorem add_entry_appends (now_iso today : String) (form : Form) (e : Entry) (xs : List Json)
    (h : build_entry now_iso today form = Except.ok e) :
    add_entry now_iso today form (some (Json.arr xs))
        = some (Json.arr (xs ++ [entryToJson e]))
      ∧ add_entry now_iso today form none = some (Json.arr [entryToJson e]) := by
  constructor <;> simp [add_entry, h, ensure_data_file]

/-- Witness for C8: posting the empty form onto a one-element store and onto
an absent store. -/
theorem add_entry_appends_witness :
    add_entry "t" "d" emptyForm (some (Json.arr [entryToJson sampleEntry]))
        = some (Json.arr ([entryToJson sampleEntry]
            ++ [entryToJson ⟨"t", "d", 0, "", false, "", "", "", false, "", ""⟩]))
      ∧ add_entry "t" "d" emptyForm none
        = some (Json.arr [entryToJson ⟨"t", "d", 0, "", false, "", "", "", false, "", ""⟩]) :=
  add_entry_appends "t" "d" emptyForm ⟨"t", "d", 0, "", false, "", "", "", false, "", ""⟩
    [entryToJson sampleEntry] rfl

end AidenHealth
